import Mathlib

/-!
Verification development for the spin-test conformance harness
(`src/src/main.rs` and `src/conformance-tests/src/main.rs`).

The development shallowly embeds:
* the composition-graph builder wrappers (`Composition::instantiate`,
  `Instance::export`) over a model of the external wac-graph linking API;
* the response channel (`HostResponseReceiver::get`, `new_response`) over a
  model of a tokio oneshot channel;
* the HTTP resource bridge (`new_request`, `body::empty`);
* the invocation runner of the conformance tests (request building, the
  single poll of the receiver, and the status/header/body assertions).
-/

namespace SpinTest

/-! ## Composition graph builder (`src/src/main.rs`) -/

/-- Error variants of the external wac-graph linking API that the source code
pattern-matches on (`wac_graph::Error`). -/
inductive WacError
  | invalidArgumentName
  | mismatchedInstantiationArg
  | argumentAlreadyPassed
  | graphContainsCycle
  | instanceMissingExport
  | otherError (msg : String)
deriving DecidableEq, Repr

/-- A registered package: its declared imports and exports, each a name paired
with an interface-type identifier (types are abstracted to `Nat` ids; two
names are type-compatible iff their ids are equal). -/
structure PackageDef where
  imports : List (String × Nat)
  exports : List (String × Nat)
deriving DecidableEq, Repr

/-- Modelled from the external wac-graph API (`CompositionGraph::set_instantiation_argument`),
the per-argument wiring step: an import name absent from the package's
declared imports yields `InvalidArgumentName`; wiring a name twice yields
`ArgumentAlreadyPassed`; a type-incompatible argument yields
`MismatchedInstantiationArg`; otherwise the name is recorded as wired. -/
def setInstantiationArgument (pkg : PackageDef) (wired : List String)
    (argName : String) (argTy : Nat) : Except WacError (List String) :=
  match pkg.imports.lookup argName with
  | none => .error .invalidArgumentName
  | some ty =>
    if wired.contains argName then .error .argumentAlreadyPassed
    else if ty ≠ argTy then .error .mismatchedInstantiationArg
    else .ok (argName :: wired)

/-- The argument-wiring loop of `Composition::instantiate`
(src/src/main.rs lines 145-155): each argument is wired with
`set_instantiation_argument`; an `Ok` result and the `InvalidArgumentName`
error both continue the loop ("Don't error if we try to pass an invalid
argument"), any other error aborts `instantiate` with that error. -/
def instantiateArgs (pkg : PackageDef) (wired : List String) :
    List (String × Nat) → Except WacError (List String)
  | [] => .ok wired
  | (argName, argTy) :: rest =>
    match setInstantiationArgument pkg wired argName argTy with
    | .ok wired2 => instantiateArgs pkg wired2 rest
    | .error .invalidArgumentName => instantiateArgs pkg wired rest
    | .error e => .error e

/-- `Composition::instantiate`: register and instantiate the package, then run
the argument-wiring loop starting from no wired arguments (package parsing and
node creation are delegated to the external wac-graph API and elided). -/
def Composition.instantiate (pkg : PackageDef) (args : List (String × Nat)) :
    Except WacError (List String) :=
  instantiateArgs pkg [] args

/-- An instantiated node as seen by `Instance::export`: the association of
export names to aliased node ids that the external graph resolves. -/
structure InstanceNode where
  exports : List (String × Nat)
deriving DecidableEq, Repr

/-- Modelled from the external wac-graph API (`CompositionGraph::alias_instance_export`):
resolving a named export of an instance node, failing with
`InstanceMissingExport` when the instance has no export of that name. -/
def aliasInstanceExport (inst : InstanceNode) (name : String) :
    Except WacError Nat :=
  match inst.exports.lookup name with
  | some n => .ok n
  | none => .error .instanceMissingExport

/-- `Instance::export` (src/src/main.rs lines 183-195): alias the named
export, mapping the `InstanceMissingExport` error to `Ok(None)` and keeping
every other error. -/
def Instance.exportNamed (inst : InstanceNode) (name : String) :
    Except WacError (Option Nat) :=
  match aliasInstanceExport inst name with
  | .ok n => .ok (some n)
  | .error .instanceMissingExport => .ok none
  | .error e => .error e

/-! ## Response channel (`src/src/main.rs`) -/

/-- A delivered HTTP response as carried over the oneshot channel
(status, header entries, whole body). -/
structure HttpResponse where
  status : Nat
  headers : List (String × String)
  body : List UInt8
deriving DecidableEq, Repr

/-- State of the tokio oneshot channel backing a `ResponseReceiver`:
nothing sent yet, a value sent (a response or an error code rendered as a
message), or the channel closed (producer dropped, or value already taken). -/
inductive ChannelState
  | empty
  | sent (v : Except String HttpResponse)
  | closed
deriving Repr

/-- Result of `tokio::sync::oneshot::Receiver::try_recv`. -/
inductive TryRecvResult
  | received (v : Except String HttpResponse)
  | errEmpty
  | errClosed
deriving Repr

/-- Modelled from the external tokio oneshot channel: `try_recv` returns the
sent value exactly once (the channel is closed afterwards), `Empty` while the
producer is alive but has not sent, and `Closed` once the producer is gone. -/
def tryRecv : ChannelState → TryRecvResult × ChannelState
  | .empty => (.errEmpty, .empty)
  | .sent v => (.received v, .closed)
  | .closed => (.errClosed, .closed)

/-- `new_response` (src/src/main.rs lines 311-321): a fresh
(outparam, receiver) pair starts with an empty oneshot channel. -/
def new_response : ChannelState := .empty

/-- Message of the `bail!` in `HostResponseReceiver::get` when `try_recv`
reports the channel closed. -/
def receiverClosedMsg : String :=
  "response receiver channel closed because outparam was dropped"

/-- `HostResponseReceiver::get` (src/src/main.rs lines 324-350): poll the
channel once; a sent response is returned as `Some`, a sent error code is
propagated as an error, an empty channel yields `None` (pending), and a
closed channel yields the distinct `bail!` message. -/
def HostResponseReceiver.get (st : ChannelState) :
    Except String (Option HttpResponse) × ChannelState :=
  match tryRecv st with
  | (.received (.ok r), st2) => (.ok (some r), st2)
  | (.received (.error e), st2) => (.error e, st2)
  | (.errEmpty, st2) => (.ok none, st2)
  | (.errClosed, st2) => (.error receiverClosedMsg, st2)

/-- Message attached by the conformance runner when the single poll returns
pending (`.context("no response found")`). -/
def noResponseMsg : String := "no response found"

/-- The response retrieval of the conformance runner
(src/conformance-tests/src/main.rs line 47):
`rx.get(&mut store)?.context("no response found")?` — a single poll of the
receiver; `None` becomes the "no response found" failure and a receiver error
is propagated as-is. -/
def runnerFetchResponse (st : ChannelState) :
    Except String HttpResponse × ChannelState :=
  match HostResponseReceiver.get st with
  | (.ok (some r), st2) => (.ok r, st2)
  | (.ok none, st2) => (.error noResponseMsg, st2)
  | (.error e, st2) => (.error e, st2)

/-! ## HTTP resource bridge (`src/src/main.rs`) -/

/-- The guest-visible HTTP method (`wasi:http/types.method`). -/
inductive Method
  | get | head | post | put | delete | connect | options | trace | patch
  | other (s : String)
deriving DecidableEq, Repr

/-- The guest-visible HTTP scheme (`wasi:http/types.scheme`). -/
inductive Scheme
  | http | https | other (s : String)
deriving DecidableEq, Repr

/-- HTTP token characters: digits, ASCII letters, and the RFC 9110 token
specials — the bytes accepted by the external `hyper::Method::from_bytes`
for extension methods. -/
def isTokenChar (c : Char) : Bool :=
  (0x30 ≤ c.toNat && c.toNat ≤ 0x39) ||
  (0x41 ≤ c.toNat && c.toNat ≤ 0x5A) ||
  (0x61 ≤ c.toNat && c.toNat ≤ 0x7A) ||
  [0x21, 0x23, 0x24, 0x25, 0x26, 0x27, 0x2A, 0x2B, 0x2D, 0x2E,
   0x5E, 0x5F, 0x60, 0x7C, 0x7E].contains c.toNat

/-- The method match of `new_request` (src/src/main.rs lines 278-290):
standard variants map to the host-native method constants; `Other(o)` goes
through the external `hyper::Method::from_bytes`, which accepts a non-empty
string of token characters and fails otherwise (the `?` in the source). -/
def methodString : Method → Except String String
  | .get => .ok "GET"
  | .head => .ok "HEAD"
  | .post => .ok "POST"
  | .put => .ok "PUT"
  | .delete => .ok "DELETE"
  | .connect => .ok "CONNECT"
  | .options => .ok "OPTIONS"
  | .trace => .ok "TRACE"
  | .patch => .ok "PATCH"
  | .other o =>
    if o.length ≠ 0 && o.toList.all isTokenChar then .ok o
    else .error "invalid method"

/-- The host-side outgoing request resource
(`wasmtime_wasi_http::types::HostOutgoingRequest`): method, optional scheme,
optional authority, optional path-with-query, headers, optional body. -/
structure HostOutgoingRequest where
  method : Method
  scheme : Option Scheme
  authority : Option String
  path_with_query : Option String
  headers : List (String × String)
  body : Option (List UInt8)
deriving DecidableEq, Repr

/-- The host-native incoming request produced by `new_request`: a concrete
method string, a composed URI, copied headers and a concrete (possibly
empty) body. -/
structure HostIncomingRequest where
  method : String
  uri : String
  headers : List (String × String)
  body : List UInt8
deriving DecidableEq, Repr

namespace body

/-- `body::empty` (src/src/main.rs lines 384-386): an explicitly empty body. -/
def empty : List UInt8 := []

end body

/-- The scheme match of `new_request` (src/src/main.rs lines 291-295):
`Some(Http) | None` become "http", `Some(Https)` becomes "https" and
`Some(Other(s))` keeps `s`. -/
def schemeString : Option Scheme → String
  | some .http | none => "http"
  | some .https => "https"
  | some (.other s) => s

/-- `new_request` (src/src/main.rs lines 272-309): convert the guest outgoing
request to a host-native incoming request — resolve the method (fallible for
`Other`), resolve the scheme string, compose the URI from scheme, authority
(default "localhost:3000") and path-with-query (default "/"), copy the
headers verbatim, and take the body out of the outgoing request (leaving its
body slot empty), attaching `body::empty` when no body is present. The
updated outgoing request is returned alongside to make the `req.body.take()`
mutation explicit. -/
def new_request (req : HostOutgoingRequest) :
    Except String (HostIncomingRequest × HostOutgoingRequest) :=
  match methodString req.method with
  | .error e => .error e
  | .ok m =>
    .ok ({ method := m,
           uri := schemeString req.scheme ++ "://" ++
             req.authority.getD "localhost:3000" ++
             req.path_with_query.getD "/",
           headers := req.headers,
           body := req.body.getD body.empty },
         { req with body := none })

/-! ## UTF-8 decoding (model of `String::from_utf8`) -/

/-- A UTF-8 continuation byte (10xxxxxx). -/
def isContByte (b : UInt8) : Bool := 0x80 ≤ b && b ≤ 0xBF

/-- Strict UTF-8 decoding of a byte sequence into characters, mirroring the
validation of the external `String::from_utf8`: ASCII bytes stand alone;
2-byte sequences start at 0xC2 (no overlongs); 3-byte sequences exclude
overlongs (0xE0 requires 0xA0-0xBF) and surrogates (0xED requires 0x80-0x9F);
4-byte sequences exclude overlongs (0xF0 requires 0x90-0xBF) and values above
U+10FFFF (0xF4 requires 0x80-0x8F). Any other shape is invalid. -/
def utf8DecodeChars : List UInt8 → Option (List Char)
  | [] => some []
  | b0 :: rest =>
    if b0 ≤ 0x7F then
      (utf8DecodeChars rest).map (fun cs => Char.ofNat b0.toNat :: cs)
    else if 0xC2 ≤ b0 && b0 ≤ 0xDF then
      match rest with
      | b1 :: rest2 =>
        if isContByte b1 then
          (utf8DecodeChars rest2).map (fun cs =>
            Char.ofNat ((b0.toNat - 0xC0) * 0x40 + (b1.toNat - 0x80)) :: cs)
        else none
      | [] => none
    else if 0xE0 ≤ b0 && b0 ≤ 0xEF then
      match rest with
      | b1 :: b2 :: rest2 =>
        if (if b0 = 0xE0 then 0xA0 ≤ b1 && b1 ≤ 0xBF
            else if b0 = 0xED then 0x80 ≤ b1 && b1 ≤ 0x9F
            else isContByte b1) && isContByte b2 then
          (utf8DecodeChars rest2).map (fun cs =>
            Char.ofNat ((b0.toNat - 0xE0) * 0x1000 +
              (b1.toNat - 0x80) * 0x40 + (b2.toNat - 0x80)) :: cs)
        else none
      | _ => none
    else if 0xF0 ≤ b0 && b0 ≤ 0xF4 then
      match rest with
      | b1 :: b2 :: b3 :: rest2 =>
        if (if b0 = 0xF0 then 0x90 ≤ b1 && b1 ≤ 0xBF
            else if b0 = 0xF4 then 0x80 ≤ b1 && b1 ≤ 0x8F
            else isContByte b1) && isContByte b2 && isContByte b3 then
          (utf8DecodeChars rest2).map (fun cs =>
            Char.ofNat ((b0.toNat - 0xF0) * 0x40000 +
              (b1.toNat - 0x80) * 0x1000 +
              (b2.toNat - 0x80) * 0x40 + (b3.toNat - 0x80)) :: cs)
        else none
      | _ => none
    else none

/-- Model of the external `String::from_utf8`: strict decoding, `none` on any
invalid sequence. -/
def string_from_utf8 (bytes : List UInt8) : Option String :=
  (utf8DecodeChars bytes).map List.asString

/-- The body decoding of the conformance runner
(src/conformance-tests/src/main.rs line 56):
`String::from_utf8(body).unwrap_or_else(|_| String::from("invalid utf-8"))` —
a body that is not valid UTF-8 becomes the literal sentinel string, not a
decode failure. -/
def decodeBody (bytes : List UInt8) : String :=
  (string_from_utf8 bytes).getD "invalid utf-8"

/-! ## Invocation runner (`src/conformance-tests/src/main.rs`) -/

/-- An expected response header of an invocation: name, optional exact value,
and whether the header may be absent. -/
structure ExpectedHeader where
  name : String
  value : Option String
  optional : Bool
deriving DecidableEq, Repr

/-- The declared request template of an invocation (fixture format): method
(default GET in the fixture schema), path, and headers. -/
structure RequestTemplate where
  method : Method
  path : String
  headers : List (String × String)
deriving DecidableEq, Repr

/-- The expected response template of an invocation. -/
structure ResponseExpectation where
  status : Nat
  headers : List ExpectedHeader
  body : Option String
deriving DecidableEq, Repr

/-- One HTTP invocation of a scenario. -/
structure HttpInvocation where
  request : RequestTemplate
  response : ResponseExpectation
deriving DecidableEq, Repr

/-- The actual response delivered for an invocation: status, raw header
entries (values are bytes), and the whole body. -/
structure ActualResponse where
  status : Nat
  headers : List (String × List UInt8)
  body : List UInt8
deriving DecidableEq, Repr

/-- ASCII lowercasing of one character. -/
def charToLower (c : Char) : Char :=
  if 65 ≤ c.toNat && c.toNat ≤ 90 then Char.ofNat (c.toNat + 32) else c

/-- Model of the external `str::to_lowercase` used on header names and
values, restricted to its ASCII action (HTTP header names and the values
compared here are ASCII). -/
def strToLower (s : String) : String :=
  (s.data.map charToLower).asString

/-- Key-replacing insertion, the behaviour of `HashMap::from_iter` on one
entry: a later entry with an equal key overwrites the earlier one. -/
def insertReplace (m : List (String × String)) (k v : String) :
    List (String × String) :=
  if m.any (fun p => p.1 == k) then
    m.map (fun p => if p.1 == k then (k, v) else p)
  else m ++ [(k, v)]

/-- The actual-header collection of the runner
(src/conformance-tests/src/main.rs lines 62-72): each entry's name is
lowercased, its byte value is UTF-8 decoded (`unwrap` — `none` models the
panic on an invalid value) and lowercased, and the pairs are collected into a
map keyed by the lowercased name. -/
def collectHeadersFrom (m : List (String × String)) :
    List (String × List UInt8) → Option (List (String × String))
  | [] => some m
  | (k, v) :: rest =>
    match string_from_utf8 v with
    | none => none
    | some s => collectHeadersFrom (insertReplace m (strToLower k) (strToLower s)) rest

/-- Collect the actual response headers into the lowercased lookup map. -/
def collectHeaders (entries : List (String × List UInt8)) :
    Option (List (String × String)) :=
  collectHeadersFrom [] entries

/-- The expected-header loop and the final leftover check of the runner
(src/conformance-tests/src/main.rs lines 73-93): for each expected header,
remove the entry with the lowercased expected name from the actual map; if
absent, skip when the header is optional and fail otherwise; if an expected
value is declared, compare it (lowercased) with the removed value. After all
expected headers, any remaining actual header is a failure. -/
def assertHeaders : List ExpectedHeader → List (String × String) →
    Except String Unit
  | [], actual =>
    if actual.isEmpty then .ok () else .error "unexpected headers"
  | e :: rest, actual =>
    match actual.lookup (strToLower e.name) with
    | none =>
      if e.optional then assertHeaders rest actual
      else .error ("expected header " ++ e.name ++ " not found in response")
    | some av =>
      let actual2 := actual.filter (fun p => p.1 != strToLower e.name)
      match e.value with
      | some ev =>
        if av = strToLower ev then assertHeaders rest actual2
        else .error ("header value mismatch for " ++ e.name)
      | none => assertHeaders rest actual2

/-- The whole header assertion of the runner: collect the actual entries
(panicking on a non-UTF-8 value) and run the expected-header loop. -/
def checkResponseHeaders (expected : List ExpectedHeader)
    (entries : List (String × List UInt8)) : Except String Unit :=
  match collectHeaders entries with
  | none => .error "panic: header value is not valid utf-8"
  | some actual => assertHeaders expected actual

/-- The body assertion of the runner
(src/conformance-tests/src/main.rs lines 95-97): asserted only when the
invocation declares an expected body, by exact string equality against the
decoded body. -/
def assertBody (expected : Option String) (bodyStr : String) :
    Except String Unit :=
  match expected with
  | none => .ok ()
  | some e => if bodyStr = e then .ok () else .error "body mismatch"

/-- The assertion phase of one invocation
(src/conformance-tests/src/main.rs lines 49-97): decode the body, assert the
status (the failure message carries the decoded body), assert the headers,
then assert the body when an expected body is declared. -/
def runInvocation (inv : HttpInvocation) (resp : ActualResponse) :
    Except String Unit :=
  let bodyStr := decodeBody resp.body
  if resp.status ≠ inv.response.status then
    .error ("request to Spin failed with body: " ++ bodyStr)
  else
    match checkResponseHeaders inv.response.headers resp.headers with
    | .error e => .error e
    | .ok _ => assertBody inv.response.body bodyStr

/-- The invocation loop of the conformance runner
(src/conformance-tests/src/main.rs lines 32-98), instrumented with the number
of invocations actually executed: the assertions are panics / early returns,
so the first failing invocation stops the loop; the remaining invocations
are never executed. -/
def runScenarioTrace :
    List (HttpInvocation × ActualResponse) → Except String Unit × Nat
  | [] => (.ok (), 0)
  | (inv, resp) :: rest =>
    match runInvocation inv resp with
    | .ok _ => ((runScenarioTrace rest).1, (runScenarioTrace rest).2 + 1)
    | .error e => (.error e, 1)

/-- Structured header errors of the guest `fields.append`. -/
inductive HeaderError
  | invalidSyntax
  | forbidden
  | immutable
deriving DecidableEq, Repr

/-- Modelled from the spec: the guest wasi:http `fields.append` of the
virtualized components (their implementation is not under src/): "append
validates header-name/value grammar, failing with a structured error
(invalid-syntax | forbidden | immutable)". A name must be a non-empty HTTP
token; a value must not contain CR, LF or NUL. -/
def fieldsAppend (fields : List (String × String)) (name value : String) :
    Except HeaderError (List (String × String)) :=
  if name.length ≠ 0 && name.toList.all isTokenChar &&
      value.toList.all (fun c =>
        c.toNat ≠ 0x0D && c.toNat ≠ 0x0A && c.toNat ≠ 0x00) then
    .ok (fields ++ [(name, value)])
  else .error .invalidSyntax

/-- The Fields building of the runner
(src/conformance-tests/src/main.rs lines 34-37): append each declared request
header in order; any append failure aborts the invocation. -/
def buildFields (headers : List (String × String)) :
    Except HeaderError (List (String × String)) :=
  headers.foldlM (fun fs kv => fieldsAppend fs kv.1 kv.2) []

/-- Modelled from the spec: the guest wasi:http outgoing-request constructor
(implemented in the virtualized components, not under src/): "Build an
outgoing request (method default GET, declared path, built Fields, no body
unless specified)" — a fresh outgoing request holds the given Fields, method
GET, and no scheme, authority, path or body. -/
def outgoingRequestConstructor (fields : List (String × String)) :
    HostOutgoingRequest :=
  { method := .get, scheme := none, authority := none,
    path_with_query := none, headers := fields, body := none }

/-- The request building of the runner
(src/conformance-tests/src/main.rs lines 34-42): build Fields from the
declared headers, construct an outgoing request from them, and set only the
path-with-query to the declared path (guest-side path syntax validation is a
collaborator detail and elided); the method declared in the invocation's
request template is never consulted. -/
def buildOutgoingRequest (req : RequestTemplate) :
    Except String HostOutgoingRequest :=
  match buildFields req.headers with
  | .error _ => .error "header append failed"
  | .ok fields =>
    .ok { outgoingRequestConstructor fields with
          path_with_query := some req.path }

/-! ## Concrete inputs used by the witnesses -/

/-- A package with a single import, for concrete evaluations. -/
def pkgW : PackageDef := ⟨[("a", 1)], []⟩

/-- A concrete outgoing request with a body. -/
def reqW : HostOutgoingRequest :=
  { method := .get, scheme := some .https, authority := none,
    path_with_query := some "/x", headers := [("a", "b")], body := some [1] }

/-- The incoming request that `new_request` produces from `reqW`. -/
def incW : HostIncomingRequest :=
  { method := "GET", uri := "https://localhost:3000/x",
    headers := [("a", "b")], body := [1] }

/-- An invocation expecting status 200 with no header or body expectations. -/
def invW : HttpInvocation := ⟨⟨.get, "/", []⟩, ⟨200, [], none⟩⟩

/-- An actual response that fails `invW` (status 500). -/
def respFailW : ActualResponse := ⟨500, [], []⟩

/-- An actual response that passes `invW` (status 200). -/
def respPassW : ActualResponse := ⟨200, [], []⟩

/-! ## Theorems -/

/-- An argument whose import name is unknown to the package is skipped by the
wiring loop without changing its state. -/
theorem instantiateArgs_skip (pkg : PackageDef) (wired : List String)
    (argName : String) (argTy : Nat) (rest : List (String × Nat))
    (h : pkg.imports.lookup argName = none) :
    instantiateArgs pkg wired ((argName, argTy) :: rest) =
      instantiateArgs pkg wired rest := by
  simp only [instantiateArgs, setInstantiationArgument, h]

/-- A wiring list made only of unknown import names leaves the wiring loop
state unchanged and succeeds. -/
theorem instantiateArgs_all_unknown (pkg : PackageDef)
    (args : List (String × Nat)) (wired : List String)
    (h : ∀ a ∈ args, pkg.imports.lookup a.1 = none) :
    instantiateArgs pkg wired args = .ok wired := by
  induction args with
  | nil => rfl
  | cons a rest ih =>
    obtain ⟨n, t⟩ := a
    rw [instantiateArgs_skip pkg wired n t rest (h (n, t) (by simp))]
    exact ih fun b hb => h b (by simp [hb])

/-- Claim C1: in the wiring loop of `Composition::instantiate`, an argument
whose import name is not among the package's declared imports is silently
skipped (a no-op — the loop continues with unchanged state, and an
instantiation whose arguments are all unknown still succeeds), while every
other wiring failure — duplicate wiring, type mismatch, or any further error
of the linking API other than the unknown-name one — aborts `instantiate`
with that fatal error. -/
theorem C1_unknown_import_skipped_other_wiring_failures_fatal :
    (∀ (pkg : PackageDef) (wired : List String) (argName : String)
        (argTy : Nat) (rest : List (String × Nat)),
      pkg.imports.lookup argName = none →
      instantiateArgs pkg wired ((argName, argTy) :: rest) =
        instantiateArgs pkg wired rest) ∧
    (∀ (pkg : PackageDef) (wired : List String) (argName : String)
        (argTy ty : Nat) (rest : List (String × Nat)),
      pkg.imports.lookup argName = some ty → wired.contains argName = true →
      instantiateArgs pkg wired ((argName, argTy) :: rest) =
        .error .argumentAlreadyPassed) ∧
    (∀ (pkg : PackageDef) (wired : List String) (argName : String)
        (argTy ty : Nat) (rest : List (String × Nat)),
      pkg.imports.lookup argName = some ty → wired.contains argName = false →
      ty ≠ argTy →
      instantiateArgs pkg wired ((argName, argTy) :: rest) =
        .error .mismatchedInstantiationArg) ∧
    (∀ (pkg : PackageDef) (wired : List String) (argName : String)
        (argTy : Nat) (rest : List (String × Nat)) (e : WacError),
      setInstantiationArgument pkg wired argName argTy = .error e →
      e ≠ .invalidArgumentName →
      instantiateArgs pkg wired ((argName, argTy) :: rest) = .error e) ∧
    (∀ (pkg : PackageDef) (args : List (String × Nat)),
      (∀ a ∈ args, pkg.imports.lookup a.1 = none) →
      Composition.instantiate pkg args = .ok []) := by
  refine ⟨instantiateArgs_skip, ?_, ?_, ?_, ?_⟩
  · intro pkg wired argName argTy ty rest h1 h2
    simp only [instantiateArgs, setInstantiationArgument, h1]
    rw [if_pos h2]
  · intro pkg wired argName argTy ty rest h1 h2 h3
    simp only [instantiateArgs, setInstantiationArgument, h1]
    rw [if_neg (by simpa using h2), if_pos h3]
  · intro pkg wired argName argTy rest e h1 h2
    cases e <;> first | exact absurd rfl h2 | simp only [instantiateArgs, h1]
  · intro pkg args h
    exact instantiateArgs_all_unknown pkg args [] h

/-- Claim C1 witness: concrete wirings exercising the skip, the duplicate, the
type mismatch, the generic fatal propagation, and the all-unknown success. -/
theorem C1_witness :
    (instantiateArgs pkgW [] [("b", 2)] = instantiateArgs pkgW [] []) ∧
    (instantiateArgs pkgW ["a"] [("a", 1)] = .error .argumentAlreadyPassed) ∧
    (instantiateArgs pkgW [] [("a", 2)] = .error .mismatchedInstantiationArg) ∧
    (instantiateArgs pkgW [] [("a", 2), ("c", 9)] =
      .error .mismatchedInstantiationArg) ∧
    (Composition.instantiate pkgW [("b", 2)] = .ok []) :=
  ⟨C1_unknown_import_skipped_other_wiring_failures_fatal.1
      pkgW [] "b" 2 [] (by decide),
   C1_unknown_import_skipped_other_wiring_failures_fatal.2.1
      pkgW ["a"] "a" 1 1 [] (by decide) (by decide),
   C1_unknown_import_skipped_other_wiring_failures_fatal.2.2.1
      pkgW [] "a" 2 1 [] (by decide) (by decide) (by decide),
   C1_unknown_import_skipped_other_wiring_failures_fatal.2.2.2.1
      pkgW [] "a" 2 [("c", 9)] .mismatchedInstantiationArg rfl (by decide),
   C1_unknown_import_skipped_other_wiring_failures_fatal.2.2.2.2
      pkgW [("b", 2)] (by decide)⟩

/-- Claim C2 counterexample: the runner retrieval is a single poll — on a
still-pending receiver it fails the invocation with the pending-case message
"no response found" instead of polling again until a terminal state, so a
still-pending outcome does occur. -/
theorem C2_counterexample_single_poll_pending_failure :
    runnerFetchResponse ChannelState.empty =
      (Except.error noResponseMsg, ChannelState.empty) ∧
    noResponseMsg ≠ receiverClosedMsg :=
  ⟨rfl, by decide⟩

/-- Claim C2 (amended): for every invocation the runner polls the receiver
exactly once: a still-pending receiver fails the invocation with
"no response found"; a produced response is returned; a produced error code
is propagated; and a dropped producer fails the invocation with the
closed-channel message, which is distinct from the pending-case message. -/
theorem C2_single_poll_outcome_messages :
    (runnerFetchResponse .empty = (.error noResponseMsg, .empty)) ∧
    (∀ r, runnerFetchResponse (.sent (.ok r)) = (.ok r, .closed)) ∧
    (∀ e, runnerFetchResponse (.sent (.error e)) = (.error e, .closed)) ∧
    (runnerFetchResponse .closed = (.error receiverClosedMsg, .closed)) ∧
    receiverClosedMsg ≠ noResponseMsg :=
  ⟨rfl, fun _ => rfl, fun _ => rfl, rfl, by decide⟩

/-- Claim C3: the header assertion — an expected header is looked up among
the actual headers by its lowercased name; an optional absent header is
skipped; a required absent header fails; a matched entry is removed from the
actual set and, when an expected value is declared, compared against the
lowercased value; after the expected headers are processed an empty actual
set passes and any remaining actual header fails; the collection step
lowercases both the names and the values of the actual entries, making the
matching case-insensitive on both sides. -/
theorem C3_header_assertion_semantics :
    (∀ (e : ExpectedHeader) (rest : List ExpectedHeader)
        (actual : List (String × String)),
      actual.lookup (strToLower e.name) = none → e.optional = true →
      assertHeaders (e :: rest) actual = assertHeaders rest actual) ∧
    (∀ (e : ExpectedHeader) (rest : List ExpectedHeader)
        (actual : List (String × String)),
      actual.lookup (strToLower e.name) = none → e.optional = false →
      assertHeaders (e :: rest) actual =
        .error ("expected header " ++ e.name ++ " not found in response")) ∧
    (∀ (e : ExpectedHeader) (rest : List ExpectedHeader)
        (actual : List (String × String)) (av : String),
      actual.lookup (strToLower e.name) = some av →
      assertHeaders (e :: rest) actual =
        match e.value with
        | some ev =>
          if av = strToLower ev then
            assertHeaders rest (actual.filter (fun p => p.1 != strToLower e.name))
          else .error ("header value mismatch for " ++ e.name)
        | none =>
          assertHeaders rest (actual.filter (fun p => p.1 != strToLower e.name))) ∧
    (assertHeaders [] [] = .ok ()) ∧
    (∀ (p : String × String) (actual : List (String × String)),
      assertHeaders [] (p :: actual) = .error "unexpected headers") ∧
    (∀ (m : List (String × String)) (k : String) (v : List UInt8)
        (rest : List (String × List UInt8)) (s : String),
      string_from_utf8 v = some s →
      collectHeadersFrom m ((k, v) :: rest) =
        collectHeadersFrom (insertReplace m (strToLower k) (strToLower s)) rest) ∧
    (∀ (e : ExpectedHeader) (v1 v2 : String) (rest : List ExpectedHeader)
        (actual : List (String × String)),
      strToLower v1 = strToLower v2 →
      assertHeaders ({ e with value := some v1 } :: rest) actual =
        assertHeaders ({ e with value := some v2 } :: rest) actual) := by
  refine ⟨?_, ?_, ?_, rfl, fun _ _ => rfl, ?_, ?_⟩
  · intro e rest actual h1 h2
    simp [assertHeaders, h1, h2]
  · intro e rest actual h1 h2
    simp [assertHeaders, h1, h2]
  · intro e rest actual av h
    simp only [assertHeaders, h]
  · intro m k v rest s h
    simp only [collectHeadersFrom, h]
  · intro e v1 v2 rest actual h
    cases hl : actual.lookup (strToLower e.name) with
    | none => simp only [assertHeaders, hl]
    | some av => simp only [assertHeaders, hl, h]

/-- Claim C3 witness: concrete instances of the optional-absent skip, the
required-absent failure, the case-insensitive match with removal, the
lowercasing collection step, and the case-insensitive expected value. -/
theorem C3_witness :
    (assertHeaders [⟨"X-Opt", none, true⟩] [] = .ok ()) ∧
    (assertHeaders [⟨"X-Req", none, false⟩] [] =
      .error "expected header X-Req not found in response") ∧
    (assertHeaders [⟨"X-Test", some "ABC", false⟩] [("x-test", "abc")] =
      .ok ()) ∧
    (collectHeadersFrom [] [("X-Test", [65, 66])] =
      collectHeadersFrom (insertReplace [] (strToLower "X-Test") (strToLower "AB")) []) ∧
    (assertHeaders [⟨"X-Test", some "ABC", false⟩] [("x-test", "abc")] =
      assertHeaders [⟨"X-Test", some "abc", false⟩] [("x-test", "abc")]) := by
  refine ⟨?_, ?_, ?_, ?_, ?_⟩
  · exact (C3_header_assertion_semantics.1 ⟨"X-Opt", none, true⟩ [] []
      (by decide) rfl).trans rfl
  · exact C3_header_assertion_semantics.2.1 ⟨"X-Req", none, false⟩ [] []
      (by decide) rfl
  · exact (C3_header_assertion_semantics.2.2.1 ⟨"X-Test", some "ABC", false⟩
      [] [("x-test", "abc")] "abc" (by decide)).trans rfl
  · exact C3_header_assertion_semantics.2.2.2.2.2.1 [] "X-Test" [65, 66] []
      "AB" (by decide)
  · exact C3_header_assertion_semantics.2.2.2.2.2.2 ⟨"X-Test", none, false⟩
      "ABC" "abc" [] [("x-test", "abc")] (by decide)

/-- Claim C4: polling a fresh receiver before production yields pending
(`Ok(None)`); polling after the single production yields the response on
first retrieval (and consumes the channel); polling after the producer was
dropped without producing yields the closed-channel error, an outcome
distinct from the pending one. -/
theorem C4_receiver_poll_state_machine :
    (HostResponseReceiver.get new_response = (.ok none, .empty)) ∧
    (∀ r, HostResponseReceiver.get (.sent (.ok r)) = (.ok (some r), .closed)) ∧
    (HostResponseReceiver.get .closed = (.error receiverClosedMsg, .closed)) ∧
    (HostResponseReceiver.get ChannelState.closed).1 ≠
      (HostResponseReceiver.get new_response).1 := by
  refine ⟨rfl, fun _ => rfl, rfl, ?_⟩
  simp [HostResponseReceiver.get, tryRecv, new_response]

/-- Claim C5: the outgoing-to-incoming conversion resolves the scheme via
Http/absent to "http", Https to "https" and Other(s) to s; composes the URI
from the scheme string, the authority (default "localhost:3000") and the
path-with-query (default "/"); copies the headers verbatim; and attaches the
supplied body or the explicit empty body. -/
theorem C5_outgoing_to_incoming_conversion :
    (schemeString (some Scheme.http) = "http") ∧
    (schemeString none = "http") ∧
    (schemeString (some Scheme.https) = "https") ∧
    (∀ s, schemeString (some (Scheme.other s)) = s) ∧
    (∀ (req : HostOutgoingRequest) (inc : HostIncomingRequest)
        (req2 : HostOutgoingRequest),
      new_request req = .ok (inc, req2) →
      inc.uri = schemeString req.scheme ++ "://" ++
          req.authority.getD "localhost:3000" ++
          req.path_with_query.getD "/" ∧
      inc.headers = req.headers ∧
      inc.body = req.body.getD body.empty) := by
  refine ⟨rfl, rfl, rfl, fun _ => rfl, ?_⟩
  intro req inc req2 h
  unfold new_request at h
  cases hm : methodString req.method with
  | error e => rw [hm] at h; exact Except.noConfusion h
  | ok m =>
    rw [hm] at h
    simp only [Except.ok.injEq, Prod.mk.injEq] at h
    obtain ⟨h1, h2⟩ := h
    subst h1
    exact ⟨rfl, rfl, rfl⟩

/-- Claim C5 witness: the conversion of the concrete request `reqW`. -/
theorem C5_witness :
    incW.uri = schemeString reqW.scheme ++ "://" ++
        reqW.authority.getD "localhost:3000" ++
        reqW.path_with_query.getD "/" ∧
    incW.headers = reqW.headers ∧
    incW.body = reqW.body.getD body.empty :=
  C5_outgoing_to_incoming_conversion.2.2.2.2 reqW incW
    { reqW with body := none } rfl

/-- Claim C6: `Instance::export` returns `Ok` of exactly the lookup of the
named export — absence is the normal non-error `Ok(None)` outcome, never an
error. -/
theorem C6_export_absent_returns_none :
    ∀ (inst : InstanceNode) (name : String),
      Instance.exportNamed inst name = .ok (inst.exports.lookup name) := by
  intro inst name
  unfold Instance.exportNamed aliasInstanceExport
  cases inst.exports.lookup name <;> rfl

/-- Claim C7: the body is asserted only when an expected body is declared
(no expected body always passes); when asserted, the comparison is exact
string equality against the decoded body; the decoding turns a body that is
not valid UTF-8 into the literal sentinel "invalid utf-8" rather than a
decode failure, and decodes a valid body faithfully. -/
theorem C7_body_assertion_semantics :
    (∀ bodyStr, assertBody none bodyStr = .ok ()) ∧
    (∀ e bodyStr, assertBody (some e) bodyStr =
      if bodyStr = e then .ok () else .error "body mismatch") ∧
    (∀ bytes, string_from_utf8 bytes = none →
      decodeBody bytes = "invalid utf-8") ∧
    (∀ bytes s, string_from_utf8 bytes = some s → decodeBody bytes = s) := by
  refine ⟨fun _ => rfl, fun _ _ => rfl, ?_, ?_⟩
  · intro bytes h; simp [decodeBody, h]
  · intro bytes s h; simp [decodeBody, h]

/-- Claim C7 witness: an invalid byte decodes to the sentinel and a valid
UTF-8 body decodes faithfully. -/
theorem C7_witness :
    (decodeBody [255] = "invalid utf-8") ∧ (decodeBody [104, 105] = "hi") :=
  ⟨C7_body_assertion_semantics.2.2.1 [255] (by decide),
   C7_body_assertion_semantics.2.2.2 [104, 105] "hi" (by decide)⟩

/-- Claim C8 counterexample: two invocations in one conformance run where the
first fails (actual status 500 against expected 200) and the second would
pass on its own — the loop executes only the first invocation of the two, so
the failure does abort the unrelated second invocation. -/
theorem C8_counterexample_failing_invocation_aborts_rest :
    (runScenarioTrace [(invW, respFailW), (invW, respPassW)]).2 = 1 ∧
    runInvocation invW respPassW = .ok () ∧
    [(invW, respFailW), (invW, respPassW)].length = 2 :=
  ⟨rfl, rfl, rfl⟩

/-- Claim C8 (amended): in the conformance runner a failing invocation aborts
the remaining invocations of the run — the loop stops at the first failure
with that failure as the run's result, having executed only that invocation;
all invocations are executed only when every one of them passes. (Isolation
exists only across test artifacts: the spin-test CLI runs a single trial per
artifact and per process.) -/
theorem C8_failing_invocation_aborts_remaining :
    (∀ (inv : HttpInvocation) (resp : ActualResponse)
        (rest : List (HttpInvocation × ActualResponse)) (e : String),
      runInvocation inv resp = .error e →
      runScenarioTrace ((inv, resp) :: rest) = (.error e, 1)) ∧
    (∀ (items : List (HttpInvocation × ActualResponse)),
      (∀ x ∈ items, runInvocation x.1 x.2 = .ok ()) →
      runScenarioTrace items = (.ok (), items.length)) := by
  constructor
  · intro inv resp rest e h
    simp only [runScenarioTrace, h]
  · intro items h
    induction items with
    | nil => rfl
    | cons x rest ih =>
      obtain ⟨inv, resp⟩ := x
      have hx := h (inv, resp) (by simp)
      have hr := ih fun b hb => h b (by simp [hb])
      simp only [runScenarioTrace, hx, hr, List.length_cons]

/-- Claim C8 witness: the concrete failing invocation aborts the (empty)
remainder with the status-mismatch failure. -/
theorem C8_witness :
    runScenarioTrace [(invW, respFailW)] =
      (.error "request to Spin failed with body: ", 1) :=
  C8_failing_invocation_aborts_remaining.1 invW respFailW []
    "request to Spin failed with body: " rfl

/-- Claim C9: the conversion takes the body out of the outgoing request —
after a successful conversion the guest-side body slot is empty, and a second
conversion of the same request succeeds and attaches the explicit empty body
rather than failing. -/
theorem C9_body_ownership_transferred_at_most_once :
    ∀ (req : HostOutgoingRequest) (inc : HostIncomingRequest)
        (req2 : HostOutgoingRequest),
      new_request req = .ok (inc, req2) →
      req2.body = none ∧
      ∃ inc2 req3, new_request req2 = .ok (inc2, req3) ∧
        inc2.body = body.empty := by
  intro req inc req2 h
  unfold new_request at h
  cases hm : methodString req.method with
  | error e => rw [hm] at h; exact Except.noConfusion h
  | ok m =>
    rw [hm] at h
    simp only [Except.ok.injEq, Prod.mk.injEq] at h
    obtain ⟨h1, h2⟩ := h
    subst h2
    refine ⟨rfl, ?_⟩
    simp only [new_request, hm]
    exact ⟨_, _, rfl, rfl⟩

/-- Claim C9 witness: converting `reqW` empties its body slot, and the second
conversion succeeds with the explicit empty body. -/
theorem C9_witness :
    ({ reqW with body := none } : HostOutgoingRequest).body = none ∧
    ∃ inc2 req3, new_request { reqW with body := none } = .ok (inc2, req3) ∧
      inc2.body = body.empty :=
  C9_body_ownership_transferred_at_most_once reqW incW
    { reqW with body := none } rfl

/-- Claim C10: the runner never sets the method on the outgoing request it
builds — whatever method the invocation's request template declares, the
built request keeps the constructor-default GET, with only the
path-with-query (and the appended headers) set and no body. -/
theorem C10_runner_never_sets_method_default_get :
    ∀ (req : RequestTemplate) (r : HostOutgoingRequest),
      buildOutgoingRequest req = .ok r →
      r.method = Method.get ∧ r.path_with_query = some req.path ∧
      r.body = none := by
  intro req r h
  unfold buildOutgoingRequest at h
  cases hf : buildFields req.headers with
  | error e => rw [hf] at h; exact Except.noConfusion h
  | ok fields =>
    rw [hf] at h
    simp only [Except.ok.injEq] at h
    subst h
    exact ⟨rfl, rfl, rfl⟩

/-- Claim C10 witness: a template declaring POST still builds a GET request. -/
theorem C10_witness :
    ({ outgoingRequestConstructor [] with path_with_query := some "/p" }
        : HostOutgoingRequest).method = Method.get :=
  (C10_runner_never_sets_method_default_get ⟨Method.post, "/p", []⟩ _ rfl).1

end SpinTest
